import Mathlib

/-!
Shallow embedding of the core of a Chrome debug-adapter engine:
the connected-state session machinery of
`src/chrome/client/chromeDebugAdapter/connectedCDA.ts`, the remote
value-container model (`variables.ts` content bundled with it), and the
`RemotePathTransformer` of `src/transformers/remotePathTransformer.ts`,
together with theorems settling the specification claims about them.

Asynchronous collaborator calls are modelled by recording an event for each
awaited operation: sequential `await`s become list concatenation, which is
faithful because all handlers of a session run on one logical thread.
-/

/-! ## Remote value container model -/

/-- Shallow embedding of `Crdp.Runtime.RemoteObject` as used by the
containers: an optional remote-object handle plus an optional primitive
value (the thrown primitive in the exception case). -/
structure RemoteObject where
  objectId : Option String
  value : Option Int
deriving DecidableEq

/-- Shallow embedding of `DebugProtocol.Variable`: the client-visible
name/value pair produced by container expansion. -/
structure Variable where
  name : String
  value : String
deriving DecidableEq

/-- Shallow embedding of `Crdp.Runtime.PropertyDescriptor` restricted to the
fields the containers use (`name` and `value`). -/
structure PropertyDescriptor where
  name : String
  value : RemoteObject
deriving DecidableEq

/-- One call made by a container against the owning `ChromeDebugAdapter`.
Recording these calls lets theorems state which backend address an
operation routes to and that an operation queries no remote state. -/
inductive AdapterCall
  | getVariablesForObjectId (objectId : Option String) (filter : Option String)
      (start : Option Nat) (count : Option Nat)
  | setPropertyValue (objectId : Option String) (name : String) (value : String)
  | setVariableValue (frameId : String) (scopeIndex : Nat) (name : String) (value : String)
  | remoteObjectToVariable (name : String) (obj : RemoteObject)
  | propertyDescriptorToVariable (descriptor : PropertyDescriptor)
deriving DecidableEq

/-- Interface of the `ChromeDebugAdapter` methods the containers call.
The implementation lives outside the verified sources, so it is kept
abstract; `objectId` may be `none` because at runtime an
`ExceptionValueContainer` passes through an undefined handle. -/
structure Adapter where
  getVariablesForObjectId : Option String → Option String → Option Nat → Option Nat → List Variable
  setPropertyValue : Option String → String → String → String
  setVariableValue : String → Nat → String → String → String
  remoteObjectToVariable : String → RemoteObject → Variable
  propertyDescriptorToVariable : PropertyDescriptor → Variable

/-- Modelled from the spec: rendering of a remote primitive for display.
The adapter conversion helpers are not among the verified sources; the spec
requires only that the fabricated variable holds the thrown primitive. -/
def renderRemoteObject (o : RemoteObject) : String :=
  match o.value with
  | some n => toString n
  | none => "undefined"

/-- Modelled from the spec: `ChromeDebugAdapter.propertyDescriptorToVariable`
is not among the verified sources; per the spec it converts a property
descriptor into a client variable carrying the descriptor name and the
rendered descriptor value. -/
def specPropertyDescriptorToVariable (d : PropertyDescriptor) : Variable :=
  ⟨d.name, renderRemoteObject d.value⟩

/-- The closed set of container kinds as a tagged sum, mirroring the class
hierarchy: `PropertyContainer`, `ScopeContainer`, `ExceptionContainer`
(constructed with a truthy handle), and `ExceptionValueContainer`.
Each constructor stores exactly the fields the corresponding class holds. -/
inductive VariableContainer
  | property (objectId : String)
  | scope (frameId : String) (origScopeIndex : Nat) (objectId : String)
      (thisObj : Option RemoteObject) (returnValue : Option RemoteObject)
  | exception (objectId : String) (exc : RemoteObject)
  | exceptionValue (exc : RemoteObject)
deriving DecidableEq

/-- Embedding of `expand` across the container kinds, returning the sequence
of adapter calls made together with the resulting variable list.

For `scope`, the code chains `super.expand(adapter, 'all', start, count)`,
then `unshift`s a variable for `_thisObj` when present, then `unshift`s one
for `_returnValue` when present — so an entry unshifted later ends up in
front of one unshifted earlier. `exception` inherits the property-container
behaviour; `exceptionValue` fabricates the single `Exception` descriptor and
converts it without any property fetch. -/
def VariableContainer.expand (A : Adapter) :
    VariableContainer → Option String → Option Nat → Option Nat →
      List AdapterCall × List Variable
  | .property oid, filter, start, count =>
      ([AdapterCall.getVariablesForObjectId (some oid) filter start count],
       A.getVariablesForObjectId (some oid) filter start count)
  | .scope _fid _idx oid thisObj returnValue, _filter, start, count =>
      let fetched := A.getVariablesForObjectId (some oid) (some "all") start count
      let baseCalls := [AdapterCall.getVariablesForObjectId (some oid) (some "all") start count]
      let afterThis :=
        match thisObj with
        | some t =>
            (baseCalls ++ [AdapterCall.remoteObjectToVariable "this" t],
             A.remoteObjectToVariable "this" t :: fetched)
        | none => (baseCalls, fetched)
      match returnValue with
      | some r =>
          (afterThis.1 ++ [AdapterCall.remoteObjectToVariable "Return value" r],
           A.remoteObjectToVariable "Return value" r :: afterThis.2)
      | none => afterThis
  | .exception oid _exc, filter, start, count =>
      ([AdapterCall.getVariablesForObjectId (some oid) filter start count],
       A.getVariablesForObjectId (some oid) filter start count)
  | .exceptionValue exc, _filter, _start, _count =>
      ([AdapterCall.propertyDescriptorToVariable ⟨"Exception", exc⟩],
       [A.propertyDescriptorToVariable ⟨"Exception", exc⟩])

/-- Embedding of `setValue` across the container kinds, returning the adapter
calls made together with the confirmation string. A property container
evaluates an assignment against its handle; a scope container addresses the
owning frame identifier plus the scope's original index. -/
def VariableContainer.setValue (A : Adapter) :
    VariableContainer → String → String → List AdapterCall × String
  | .property oid, n, v =>
      ([AdapterCall.setPropertyValue (some oid) n v], A.setPropertyValue (some oid) n v)
  | .scope fid idx _oid _t _r, n, v =>
      ([AdapterCall.setVariableValue fid idx n v], A.setVariableValue fid idx n v)
  | .exception oid _exc, n, v =>
      ([AdapterCall.setPropertyValue (some oid) n v], A.setPropertyValue (some oid) n v)
  | .exceptionValue exc, n, v =>
      ([AdapterCall.setPropertyValue exc.objectId n v], A.setPropertyValue exc.objectId n v)

/-- Embedding of `ExceptionContainer.create`: a truthy `objectId` (present and
non-empty, matching the JavaScript truthiness test) yields an
`ExceptionContainer` wrapping that handle, otherwise an
`ExceptionValueContainer` for the thrown primitive. -/
def ExceptionContainer.create (exc : RemoteObject) : VariableContainer :=
  match exc.objectId with
  | some oid => if oid = "" then .exceptionValue exc else .exception oid exc
  | none => .exceptionValue exc

/-- Concrete adapter used to exercise the containers on distinguishable
inputs: the property fetch yields one fixed variable and the conversion
helpers follow the spec-modelled conversions. -/
def mockAdapter : Adapter where
  getVariablesForObjectId := fun _ _ _ _ => [⟨"x", "1"⟩]
  setPropertyValue := fun _ _ _ => "propertyBackend"
  setVariableValue := fun _ _ _ _ => "variableBackend"
  remoteObjectToVariable := fun n o => ⟨n, renderRemoteObject o⟩
  propertyDescriptorToVariable := specPropertyDescriptorToVariable

/-! ## Indexed property-name classification -/

/-- Whitespace skipped by the JavaScript numeric parse. -/
def jsWhitespace (c : Char) : Bool :=
  c = ' ' || c = '\t' || c = '\n' || c = '\r' || c = '\x0b' || c = '\x0c'

/-- Digit-prefix parse used by `parseInt`: longest leading run of base-10
digits, failing when that run is empty. -/
def parseDigits (neg : Bool) (cs : List Char) : Option Int :=
  let ds := cs.takeWhile Char.isDigit
  if ds.isEmpty then none
  else
    let n : Nat := ds.foldl (fun a c => a * 10 + (c.toNat - 48)) 0
    some (if neg then -(n : Int) else (n : Int))

/-- Embedding of JavaScript `parseInt(s, 10)`: skip leading whitespace, accept
an optional sign, then parse the longest run of leading base-10 digits;
`none` plays the role of `NaN`. -/
def parseInt (s : String) : Option Int :=
  match s.data.dropWhile jsWhitespace with
  | '-' :: t => parseDigits true t
  | '+' :: t => parseDigits false t
  | cs => parseDigits false cs

/-- Embedding of `isIndexedPropName`: the source returns
`!isNaN(parseInt(name, 10))`, i.e. the lenient base-10 parse succeeded. -/
def isIndexedPropName (name : String) : Bool :=
  (parseInt name).isSome

/-! ## Connected-state session machine -/

/-- Modelled from the spec: `TerminatingReason` is declared in
`terminatingCDA.ts`, which is not among the verified sources; the spec
enumerates a client-requested cause and a target-initiated transport-loss
cause (the websocket disconnect). -/
inductive TerminatingReason
  | clientRequestedToDisconnect
  | disconnectedFromWebsocket
deriving DecidableEq

/-- Observable steps of one teardown sequence: the `TerminatingCDAProvider`
producing a terminating state for a reason, awaiting that state's install,
and handing it to the owning adapter to finalize disconnect bookkeeping.
The install and finalize bodies live outside the verified sources and are
recorded as opaque events. -/
inductive TeardownEv
  | createTerminating (r : TerminatingReason)
  | terminatingInstall (r : TerminatingReason)
  | finalizeDisconnect (r : TerminatingReason)
deriving DecidableEq

/-- Mutable state of a `ConnectedCDA` relevant to disconnect arbitration:
the `_ignoreNextDisconnectedFromWebSocket` flag plus the teardown events
performed so far. -/
structure ConnectedCDAState where
  ignoreNextDisconnectedFromWebSocket : Bool
  events : List TeardownEv
deriving DecidableEq

/-- Embedding of `ConnectedCDA.disconnect(reason)`: obtain a terminating
state for the reason, await its install, then ask the owning adapter to
finalize the disconnect with it. -/
def ConnectedCDA.disconnect (reason : TerminatingReason) (s : ConnectedCDAState) :
    ConnectedCDAState :=
  { s with
    events := s.events ++
      [TeardownEv.createTerminating reason,
       TeardownEv.terminatingInstall reason,
       TeardownEv.finalizeDisconnect reason] }

/-- Embedding of the dispatch-table handler for the client `disconnect`
request: set `_ignoreNextDisconnectedFromWebSocket`, then await
`this.disconnect(TerminatingReason.DisconnectedFromWebsocket)` — the source
passes the websocket reason here. -/
def ConnectedCDA.onDisconnectRequest (s : ConnectedCDAState) : ConnectedCDAState :=
  ConnectedCDA.disconnect TerminatingReason.disconnectedFromWebsocket
    { s with ignoreNextDisconnectedFromWebSocket := true }

/-- Embedding of the `onClose` subscriber installed by `install()`: when the
flag is not set it begins teardown with the websocket reason and assigns the
flag false; both statements sit inside the guard, so a set flag leaves the
handler with nothing to do at all. -/
def ConnectedCDA.onCloseHandler (s : ConnectedCDAState) : ConnectedCDAState :=
  if !s.ignoreNextDisconnectedFromWebSocket then
    let afterTeardown := ConnectedCDA.disconnect TerminatingReason.disconnectedFromWebsocket s
    { afterTeardown with ignoreNextDisconnectedFromWebSocket := false }
  else s

/-- State of a freshly connected session: flag clear, no teardown yet. -/
def initialConnectedState : ConnectedCDAState :=
  ⟨false, []⟩

/-- The client requests whose connected-state handling the claims examine. -/
inductive ClientRequest
  | initializeRequest
  | launchRequest
  | attachRequest
  | disconnectRequest
deriving DecidableEq

/-- Embedding of the built-in entries of the connected-state dispatch table:
the three illegal requests throw their descriptive errors (leaving the state
untouched), and `disconnect` runs the disconnect handler. -/
def ConnectedCDA.handleRequest :
    ClientRequest → ConnectedCDAState → Except String Unit × ConnectedCDAState
  | .initializeRequest, s =>
      (Except.error "The debug adapter is already initialized. Calling initialize again is not supported.", s)
  | .launchRequest, s =>
      (Except.error "Can\x27t launch  to a new target while connected to a previous target", s)
  | .attachRequest, s =>
      (Except.error "Can\x27t attach to a new target while connected to a previous target", s)
  | .disconnectRequest, s =>
      (Except.ok (), ConnectedCDA.onDisconnectRequest s)

/-- Recognizer for the terminating-state-creation step of a teardown. -/
def isCreateTerminating : TeardownEv → Bool
  | .createTerminating _ => true
  | _ => false

/-- Recognizer for the terminating-state-install step of a teardown. -/
def isTerminatingInstall : TeardownEv → Bool
  | .terminatingInstall _ => true
  | _ => false

/-- Recognizer for the finalize-disconnect step of a teardown. -/
def isFinalizeDisconnect : TeardownEv → Bool
  | .finalizeDisconnect _ => true
  | _ => false

/-- Observable steps of `ConnectedCDA.install()`, one per awaited operation
plus the readiness notification and the close subscription. -/
inductive InstallEv
  | superInstall
  | adapterLogicInstall
  | domainsEnabled
  | componentInstall (name : String)
  | runIfWaitingForDebugger
  | initializedEvent
  | subscribeOnClose
deriving DecidableEq

/-- Embedding of the `for`-loop over `_serviceComponents`: each component's
install is awaited before the next begins, in registration order. -/
def installComponents : List String → List InstallEv
  | [] => []
  | c :: rest => InstallEv.componentInstall c :: installComponents rest

/-- Embedding of `ConnectedCDA.install()` as the trace of its sequential
awaits: `super.install()`, adapter-logic install, domain enabling, the
component loop, runtime resume, the `InitializedEvent`, and the `onClose`
subscription, in source order. -/
def connectedInstall (comps : List String) : List InstallEv :=
  InstallEv.superInstall
    :: InstallEv.adapterLogicInstall
    :: InstallEv.domainsEnabled
    :: (installComponents comps ++
        [InstallEv.runIfWaitingForDebugger, InstallEv.initializedEvent,
         InstallEv.subscribeOnClose])

/-! ## Remote path transformer -/

/-- Embedding of Node `path.posix.isAbsolute`: non-empty and starting with a
forward slash. -/
def posixIsAbsolute (p : String) : Bool :=
  match p.data with
  | [] => false
  | c :: _ => c = '/'

/-- Windows path separator test: forward or backward slash. -/
def isPathSeparator (c : Char) : Bool :=
  c = '/' || c = '\\'

/-- Embedding of Node `path.win32.isAbsolute`: a leading separator, or a
drive letter followed by a colon and a separator. -/
def win32IsAbsolute (p : String) : Bool :=
  match p.data with
  | [] => false
  | c :: rest =>
      isPathSeparator c ||
        (match rest with
         | ':' :: s :: _ => c.isAlpha && isPathSeparator s
         | _ => false)

/-- JavaScript truthiness of an optional string: undefined and the empty
string are falsy. -/
def truthyStr : Option String → Bool
  | none => false
  | some s => !s.isEmpty

/-- Path helpers the transformer delegates to (Node `path` plus
`utils.forceForwardSlashes` and `utils.fixDriveLetterAndSlashes`, none of
which are among the verified sources), kept abstract. -/
structure PathOps where
  posixRelative : String → String → String
  win32Relative : String → String → String
  posixJoin : String → String → String
  win32Join : String → String → String
  forceForwardSlashes : String → String
  fixDriveLetterAndSlashes : String → Bool → String

/-- Test for the `^[A-Za-z]:` pattern choosing win32 path semantics. -/
def startsWithDriveLetter (s : String) : Bool :=
  match s.data with
  | c :: ':' :: _ => c.isAlpha
  | _ => false

/-- Embedding of the module-level cross-platform `relative` helper. -/
def crossRelative (ops : PathOps) (a b : String) : String :=
  if startsWithDriveLetter a then ops.win32Relative a b else ops.posixRelative a b

/-- Embedding of the module-level cross-platform `join` helper. -/
def crossJoin (ops : PathOps) (a b : String) : String :=
  if startsWithDriveLetter a then ops.win32Join a b
  else ops.forceForwardSlashes (ops.posixJoin a b)

/-- State of a `RemotePathTransformer`: the roots are undefined until a
launch or attach request supplies them. -/
structure RemotePathTransformer where
  localRoot : Option String
  remoteRoot : Option String

/-- Embedding of `RemotePathTransformer.shouldMapPaths`: both roots truthy
and the path absolute under at least one of the two conventions. -/
def RemotePathTransformer.shouldMapPaths (t : RemotePathTransformer) (remotePath : String) : Bool :=
  truthyStr t.localRoot && truthyStr t.remoteRoot &&
    (posixIsAbsolute remotePath || win32IsAbsolute remotePath)

/-- Embedding of `RemotePathTransformer.getClientPathFromTargetPath`. -/
def RemotePathTransformer.getClientPathFromTargetPath
    (ops : PathOps) (t : RemotePathTransformer) (remotePath : String) : String :=
  if t.shouldMapPaths remotePath then
    let relPath := crossRelative ops (t.remoteRoot.getD "") remotePath
    let localPath := crossJoin ops (t.localRoot.getD "") relPath
    ops.fixDriveLetterAndSlashes localPath false
  else remotePath

/-- Embedding of `RemotePathTransformer.getTargetPathFromClientPath`. -/
def RemotePathTransformer.getTargetPathFromClientPath
    (ops : PathOps) (t : RemotePathTransformer) (localPath : String) : String :=
  if t.shouldMapPaths localPath then
    let relPath := crossRelative ops (t.localRoot.getD "") localPath
    let remotePath := crossJoin ops (t.remoteRoot.getD "") relPath
    ops.fixDriveLetterAndSlashes remotePath true
  else localPath

/-- Concrete path helpers used to evaluate the transformer on inputs. -/
def trivialPathOps : PathOps where
  posixRelative := fun _ b => b
  win32Relative := fun _ b => b
  posixJoin := fun a b => a ++ b
  win32Join := fun a b => a ++ b
  forceForwardSlashes := fun s => s
  fixDriveLetterAndSlashes := fun s _ => s

/-! ## Theorems -/

/-- Helper: the component loop produces exactly the registered components as
install events, in registration order. -/
theorem installComponents_eq_map (comps : List String) :
    installComponents comps = comps.map InstallEv.componentInstall := by
  induction comps with
  | nil => rfl
  | cons c rest ih => simp [installComponents, ih]

/-- C1: in the Connected state, a client disconnect request followed by the
transport-close notification performs each teardown step — creating the
Terminating state, installing it, finalizing disconnect — exactly once. -/
theorem connectedCDA_dual_trigger_single_teardown :
    (((ConnectedCDA.onCloseHandler
        (ConnectedCDA.onDisconnectRequest initialConnectedState)).events.filter
          isCreateTerminating).length = 1)
    ∧ (((ConnectedCDA.onCloseHandler
        (ConnectedCDA.onDisconnectRequest initialConnectedState)).events.filter
          isTerminatingInstall).length = 1)
    ∧ (((ConnectedCDA.onCloseHandler
        (ConnectedCDA.onDisconnectRequest initialConnectedState)).events.filter
          isFinalizeDisconnect).length = 1) := by
  decide

/-- C2 (code evaluated at the failing input): when the transport-close
notification fires while the Disconnect Trigger Flag is set, the handler
performs no teardown but also leaves the flag set — it is not cleared,
because the clearing assignment sits inside the not-flag guard. -/
theorem connectedCDA_onClose_flag_not_cleared :
    ConnectedCDA.onCloseHandler ⟨true, []⟩ = ⟨true, []⟩
    ∧ (ConnectedCDA.onCloseHandler ⟨true, []⟩).ignoreNextDisconnectedFromWebSocket ≠ false := by
  decide

/-- C3: every run of Connected's install emits the readiness notification
only after adapter-internals install, domain enabling, every registered
component's install in registration order, and runtime resume, in that
strict order. -/
theorem connectedCDA_install_initialized_after_setup (comps : List String) :
    ∃ post, connectedInstall comps
      = ([InstallEv.superInstall, InstallEv.adapterLogicInstall, InstallEv.domainsEnabled]
          ++ comps.map InstallEv.componentInstall
          ++ [InstallEv.runIfWaitingForDebugger])
        ++ InstallEv.initializedEvent :: post := by
  exact ⟨[InstallEv.subscribeOnClose], by
    simp [connectedInstall, installComponents_eq_map]⟩

/-- C4 counterexample: a Scope Container built with both a `this` value and a
return value expands with the synthetic `Return value` entry first, not the
`this` entry — each `unshift` pushes in front of the previous one. -/
theorem scopeContainer_expand_this_first_counterexample :
    (VariableContainer.expand mockAdapter
        (.scope "frame1" 0 "obj1" (some ⟨some "t1", some 5⟩) (some ⟨some "r1", some 7⟩))
        none none none).2
      = [⟨"Return value", "7"⟩, ⟨"this", "5"⟩, ⟨"x", "1"⟩]
    ∧ (VariableContainer.expand mockAdapter
        (.scope "frame1" 0 "obj1" (some ⟨some "t1", some 5⟩) (some ⟨some "r1", some 7⟩))
        none none none).2.head?
      ≠ some (mockAdapter.remoteObjectToVariable "this" ⟨some "t1", some 5⟩) := by
  refine ⟨rfl, ?_⟩
  decide

/-- C4 amended: for every Scope Container with both a `this` value and a
return value, expand returns the synthetic `Return value` entry first, then
the synthetic `this` entry, then the handle-derived properties in fetch
order. -/
theorem scopeContainer_expand_returnValue_then_this
    (A : Adapter) (fid : String) (idx : Nat) (oid : String)
    (t r : RemoteObject) (f : Option String) (s c : Option Nat) :
    (VariableContainer.expand A (.scope fid idx oid (some t) (some r)) f s c).2
      = A.remoteObjectToVariable "Return value" r
        :: A.remoteObjectToVariable "this" t
        :: A.getVariablesForObjectId (some oid) (some "all") s c :=
  rfl

/-- C5: isIndexedPropName classifies a key as indexed exactly when the
lenient base-10 parse succeeds, and in particular accepts "3", "-1" and
"03x" while rejecting "x3". -/
theorem isIndexedPropName_lenient_parse :
    (∀ s, isIndexedPropName s = (parseInt s).isSome)
    ∧ isIndexedPropName "3" = true
    ∧ isIndexedPropName "-1" = true
    ∧ isIndexedPropName "03x" = true
    ∧ isIndexedPropName "x3" = false :=
  ⟨fun _ => rfl, by decide, by decide, by decide, by decide⟩

/-- C6: a thrown value with no object handle yields an Exception Value
Container whose expand makes no remote-state query — its only adapter call
converts the fabricated descriptor — and returns exactly one variable named
`Exception` holding the thrown primitive; a thrown value with a (truthy)
object handle yields an Exception Container wrapping that handle. -/
theorem exceptionContainer_create_and_expand
    (A : Adapter) (hA : A.propertyDescriptorToVariable = specPropertyDescriptorToVariable)
    (e1 e2 : RemoteObject) (f : Option String) (s c : Option Nat)
    (h1 : e1.objectId = none) (oid : String) (h2 : e2.objectId = some oid)
    (hoid : oid ≠ "") :
    ExceptionContainer.create e1 = .exceptionValue e1
    ∧ (VariableContainer.expand A (.exceptionValue e1) f s c).1
        = [AdapterCall.propertyDescriptorToVariable ⟨"Exception", e1⟩]
    ∧ (VariableContainer.expand A (.exceptionValue e1) f s c).2
        = [⟨"Exception", renderRemoteObject e1⟩]
    ∧ ExceptionContainer.create e2 = .exception oid e2 := by
  refine ⟨?_, rfl, ?_, ?_⟩
  · simp [ExceptionContainer.create, h1]
  · simp [VariableContainer.expand, hA, specPropertyDescriptorToVariable]
  · simp [ExceptionContainer.create, h2, hoid]

/-- Witness for C6 at the thrown primitive 42 and at a handle-bearing thrown
object. -/
theorem exceptionContainer_create_and_expand_witness :
    ExceptionContainer.create ⟨none, some 42⟩ = .exceptionValue ⟨none, some 42⟩
    ∧ (VariableContainer.expand mockAdapter (.exceptionValue ⟨none, some 42⟩) none none none).1
        = [AdapterCall.propertyDescriptorToVariable ⟨"Exception", ⟨none, some 42⟩⟩]
    ∧ (VariableContainer.expand mockAdapter (.exceptionValue ⟨none, some 42⟩) none none none).2
        = [⟨"Exception", "42"⟩]
    ∧ ExceptionContainer.create ⟨some "objid7", none⟩ = .exception "objid7" ⟨some "objid7", none⟩ :=
  exceptionContainer_create_and_expand mockAdapter rfl
    ⟨none, some 42⟩ ⟨some "objid7", none⟩ none none none rfl "objid7" rfl (by decide)

/-- C7: setValue on a Scope Container routes to the owning frame identifier
plus the scope's original index, while setValue on a Property Container
routes to the wrapped object handle. -/
theorem container_setValue_routing :
    (∀ (A : Adapter) (fid : String) (idx : Nat) (oid : String)
        (t r : Option RemoteObject) (n v : String),
      VariableContainer.setValue A (.scope fid idx oid t r) n v
        = ([AdapterCall.setVariableValue fid idx n v], A.setVariableValue fid idx n v))
    ∧ (∀ (A : Adapter) (oid n v : String),
      VariableContainer.setValue A (.property oid) n v
        = ([AdapterCall.setPropertyValue (some oid) n v], A.setPropertyValue (some oid) n v)) :=
  ⟨fun _ _ _ _ _ _ _ _ => rfl, fun _ _ _ _ => rfl⟩

/-- C8: in the Connected state, the initialize, launch and attach requests
each fail with their descriptive error message while leaving the session
state — including the Disconnect Trigger Flag and the teardown history —
unchanged. -/
theorem connectedCDA_illegal_requests_fail_without_side_effects :
    ∀ s : ConnectedCDAState,
      ConnectedCDA.handleRequest ClientRequest.initializeRequest s
        = (Except.error "The debug adapter is already initialized. Calling initialize again is not supported.", s)
      ∧ ConnectedCDA.handleRequest ClientRequest.launchRequest s
        = (Except.error "Can\x27t launch  to a new target while connected to a previous target", s)
      ∧ ConnectedCDA.handleRequest ClientRequest.attachRequest s
        = (Except.error "Can\x27t attach to a new target while connected to a previous target", s)
      ∧ "The debug adapter is already initialized. Calling initialize again is not supported." ≠ ""
      ∧ "Can\x27t launch  to a new target while connected to a previous target" ≠ ""
      ∧ "Can\x27t attach to a new target while connected to a previous target" ≠ "" :=
  fun _ => ⟨rfl, rfl, rfl, by decide, by decide, by decide⟩

/-- C9 counterexample: processing a client disconnect request produces a
teardown whose every step carries the websocket-disconnect reason; no step
carries the client-requested reason, contrary to the claimed attribution. -/
theorem client_disconnect_reason_counterexample :
    (ConnectedCDA.onDisconnectRequest initialConnectedState).events
      = [TeardownEv.createTerminating TerminatingReason.disconnectedFromWebsocket,
         TeardownEv.terminatingInstall TerminatingReason.disconnectedFromWebsocket,
         TeardownEv.finalizeDisconnect TerminatingReason.disconnectedFromWebsocket]
    ∧ TeardownEv.createTerminating TerminatingReason.clientRequestedToDisconnect
        ∉ (ConnectedCDA.onDisconnectRequest initialConnectedState).events := by
  decide

/-- C9 amended: both teardown triggers attribute the Terminating state to the
transport-loss (websocket-disconnect) reason — the transport-close path as
the claim states, but the client-requested path passes the same reason
rather than a client-requested one. -/
theorem teardown_reason_attribution :
    ConnectedCDA.onCloseHandler initialConnectedState
      = ⟨false,
         [TeardownEv.createTerminating TerminatingReason.disconnectedFromWebsocket,
          TeardownEv.terminatingInstall TerminatingReason.disconnectedFromWebsocket,
          TeardownEv.finalizeDisconnect TerminatingReason.disconnectedFromWebsocket]⟩
    ∧ ConnectedCDA.onDisconnectRequest initialConnectedState
      = ⟨true,
         [TeardownEv.createTerminating TerminatingReason.disconnectedFromWebsocket,
          TeardownEv.terminatingInstall TerminatingReason.disconnectedFromWebsocket,
          TeardownEv.finalizeDisconnect TerminatingReason.disconnectedFromWebsocket]⟩ := by
  decide

/-- C10: whenever the local root or the remote root is unset, or the path is
absolute under neither the POSIX nor the Windows convention, both direction
mappings of the RemotePathTransformer return the input unchanged. -/
theorem remotePathTransformer_identity_when_unmapped
    (ops : PathOps) (t : RemotePathTransformer) (p : String)
    (h : t.localRoot = none ∨ t.remoteRoot = none
          ∨ (posixIsAbsolute p = false ∧ win32IsAbsolute p = false)) :
    t.getClientPathFromTargetPath ops p = p ∧ t.getTargetPathFromClientPath ops p = p := by
  have hm : t.shouldMapPaths p = false := by
    rcases h with h | h | ⟨h1, h2⟩ <;>
      simp [RemotePathTransformer.shouldMapPaths, truthyStr, *]
  constructor <;>
    simp [RemotePathTransformer.getClientPathFromTargetPath,
      RemotePathTransformer.getTargetPathFromClientPath, hm]

/-- Witness for C10 on a transformer with no roots configured. -/
theorem remotePathTransformer_identity_when_unmapped_witness :
    RemotePathTransformer.getClientPathFromTargetPath trivialPathOps ⟨none, none⟩ "foo" = "foo"
    ∧ RemotePathTransformer.getTargetPathFromClientPath trivialPathOps ⟨none, none⟩ "foo" = "foo" :=
  remotePathTransformer_identity_when_unmapped trivialPathOps ⟨none, none⟩ "foo" (Or.inl rfl)
